import Mathlib

/-!
Shallow embedding of `src/bike_rental_system.py` (Bike-Rental-System).

Modelling conventions:
* Python `float` rates and costs become `ℚ` (exact arithmetic over the
  decimal literals appearing in the source).
* Python `int` hours become `ℤ`; Python `//` and `%` are floor division,
  embedded as `Int.fdiv` / `Int.fmod`.
* Timestamps (`datetime`) become `ℚ`, counted in seconds, so that
  `(end - start).total_seconds() / 3600` becomes `(now - start) / 3600`.
* The SQLite tables become lists of rows inside a `SystemState`; the
  `BikeRentalSystem` methods become state-passing functions returning the
  new state together with an `Except` value in place of the printed
  error / `False` return.
-/

namespace BikeRental

/-- A row of the `bikes` table (schema from `DatabaseManager.init_database`). -/
structure BikeRow where
  id : ℤ
  bike_type : String
  model : String
  hourly_rate : ℚ
  daily_rate : ℚ
  is_available : Bool
deriving DecidableEq, Repr

/-- A row of the `customers` table (the fields used by the `Customer` class). -/
structure CustomerRow where
  id : ℤ
  name : String
  email : String
  phone : String
deriving DecidableEq, Repr

/-- A row of the `rentals` table. `rental_end` and `actual_duration_hours`
are nullable columns; `additional_charges` defaults to `0` and `status`
defaults to `"ACTIVE"` in the schema. -/
structure RentalRow where
  id : ℤ
  customer_id : ℤ
  bike_id : ℤ
  rental_start : ℚ
  rental_end : Option ℚ
  planned_duration_hours : ℤ
  actual_duration_hours : Option ℚ
  base_cost : ℚ
  additional_charges : ℚ
  total_cost : ℚ
  status : String
deriving DecidableEq, Repr

/-- The concrete `Bike` subclass instantiated by `BikeFactory.create_bike`. -/
inductive BikeClass where
  | MountainBike
  | RoadBike
  | HybridBike
  | ElectricBike
deriving DecidableEq, Repr

/-- `MountainBike.calculate_rental_cost` (src lines 122-131). -/
def MountainBike.calculate_rental_cost (hourly_rate daily_rate : ℚ) (hours : ℤ) : ℚ :=
  if hours ≤ 4 then
    hours * hourly_rate
  else
    let days := Int.fdiv hours 24
    let remaining_hours := Int.fmod hours 24
    (days * daily_rate) + (remaining_hours * hourly_rate * 0.8)

/-- `RoadBike.calculate_rental_cost` (src lines 136-143). -/
def RoadBike.calculate_rental_cost (hourly_rate daily_rate : ℚ) (hours : ℤ) : ℚ :=
  if hours ≤ 3 then
    hours * hourly_rate
  else
    let days := Int.fdiv hours 24
    let remaining_hours := Int.fmod hours 24
    (days * daily_rate) + (remaining_hours * hourly_rate)

/-- `HybridBike.calculate_rental_cost` (src lines 149-159). -/
def HybridBike.calculate_rental_cost (hourly_rate daily_rate : ℚ) (hours : ℤ) : ℚ :=
  if hours ≤ 6 then
    hours * hourly_rate
  else
    let days := Int.fdiv hours 24
    let remaining_hours := Int.fmod hours 24
    let daily_cost := days * daily_rate
    let hourly_cost := remaining_hours * hourly_rate * 0.9
    daily_cost + hourly_cost

/-- `ElectricBike.calculate_rental_cost` (src lines 165-171). -/
def ElectricBike.calculate_rental_cost (hourly_rate daily_rate : ℚ) (hours : ℤ) : ℚ :=
  let base_cost :=
    if hours ≤ 8 then hours * hourly_rate
    else (Int.fdiv hours 24) * daily_rate + (Int.fmod hours 24) * hourly_rate
  let battery_fee := (hours : ℚ) * 2.0
  base_cost + battery_fee

/-- Cost dispatch through the class instantiated by the factory
(the polymorphic `bike.calculate_rental_cost(hours)` call). -/
def BikeClass.calculate_rental_cost (c : BikeClass) (hourly_rate daily_rate : ℚ)
    (hours : ℤ) : ℚ :=
  match c with
  | .MountainBike => MountainBike.calculate_rental_cost hourly_rate daily_rate hours
  | .RoadBike => RoadBike.calculate_rental_cost hourly_rate daily_rate hours
  | .HybridBike => HybridBike.calculate_rental_cost hourly_rate daily_rate hours
  | .ElectricBike => ElectricBike.calculate_rental_cost hourly_rate daily_rate hours

/-- The in-memory `Bike` object built by the factory: the constructor
arguments of the `Bike` base class plus the concrete class chosen. -/
structure BikeObj where
  bike_id : ℤ
  bike_type : String
  model : String
  hourly_rate : ℚ
  daily_rate : ℚ
  cls : BikeClass
deriving DecidableEq, Repr

def BikeObj.calculate_rental_cost (b : BikeObj) (hours : ℤ) : ℚ :=
  b.cls.calculate_rental_cost b.hourly_rate b.daily_rate hours

/-- The `bike_classes` dict of `BikeFactory.create_bike` (src lines 183-188). -/
def bike_classes : List (String × BikeClass) :=
  [("Mountain", .MountainBike),
   ("Road", .RoadBike),
   ("Hybrid", .HybridBike),
   ("Electric", .ElectricBike)]

/-- Python `dict.get(key, default)` over the association list. -/
def dictGet (d : List (String × BikeClass)) (key : String) (default : BikeClass) :
    BikeClass :=
  match d.find? (fun p => p.1 == key) with
  | some p => p.2
  | none => default

/-- `BikeFactory.create_bike` (src lines 178-191): looks the stored label up
in `bike_classes`, defaulting to `HybridBike`, and instantiates it with the
row's id, label, model and rates. -/
def BikeFactory.create_bike (bike_id : ℤ) (bike_type model : String)
    (hourly_rate daily_rate : ℚ) : BikeObj :=
  { bike_id := bike_id
    bike_type := bike_type
    model := model
    hourly_rate := hourly_rate
    daily_rate := daily_rate
    cls := dictGet bike_classes bike_type .HybridBike }

/-- The state of the whole system: the three tables plus the
`current_customer` session field of `BikeRentalSystem`. -/
structure SystemState where
  bikes : List BikeRow
  customers : List CustomerRow
  rentals : List RentalRow
  current_customer : Option CustomerRow
deriving DecidableEq, Repr

/-- The error outcomes of the lifecycle operations: the printed messages of
`rent_bike` / `return_bike`, named per the spec taxonomy (§7).
`NotLoggedIn` stands for the "Please login first!" path. -/
inductive RentalError where
  | NotLoggedIn
  | InvalidDurationError
  | BikeUnavailableError
  | RentalNotFoundError
deriving DecidableEq, Repr

/-- SQLite `AUTOINCREMENT`: one greater than the largest id handed out. -/
def next_id (rentals : List RentalRow) : ℤ :=
  (rentals.map (fun r => r.id)).foldl max 0 + 1

/-- `BikeRentalSystem.rent_bike` (src lines 282-336).
Checks `current_customer`, then `duration_hours <= 0`, then looks up
`SELECT * FROM bikes WHERE id = ? AND is_available = 1`; on success it
computes `total_cost = bike.calculate_rental_cost(duration_hours)`, inserts
a rental row (the schema defaults `additional_charges` to `0` and `status`
to `"ACTIVE"`, with `base_cost = total_cost`), and marks the bike
unavailable.  Returns the new state and, in place of the printed receipt,
the new rental's id and total cost. -/
def BikeRentalSystem.rent_bike (s : SystemState) (now : ℚ) (bike_id : ℤ)
    (duration_hours : ℤ) : SystemState × Except RentalError (ℤ × ℚ) :=
  match s.current_customer with
  | none => (s, .error .NotLoggedIn)
  | some cust =>
    if duration_hours ≤ 0 then
      (s, .error .InvalidDurationError)
    else
      match s.bikes.find? (fun b => b.id == bike_id && b.is_available) with
      | none => (s, .error .BikeUnavailableError)
      | some bike_data =>
        let bike := BikeFactory.create_bike bike_data.id bike_data.bike_type
          bike_data.model bike_data.hourly_rate bike_data.daily_rate
        let total_cost := bike.calculate_rental_cost duration_hours
        let rental_id := next_id s.rentals
        let rental : RentalRow :=
          { id := rental_id
            customer_id := cust.id
            bike_id := bike_id
            rental_start := now
            rental_end := none
            planned_duration_hours := duration_hours
            actual_duration_hours := none
            base_cost := total_cost
            additional_charges := 0
            total_cost := total_cost
            status := "ACTIVE" }
        ({ s with
            rentals := s.rentals ++ [rental]
            bikes := s.bikes.map (fun b =>
              if b.id == bike_id then { b with is_available := false } else b) },
         .ok (rental_id, total_cost))

/-- The boolean form of the `return_bike` lookup
`WHERE r.id = ? AND r.customer_id = ? AND r.status = 'ACTIVE'`. -/
def activeRentalPred (rental_id customer_id : ℤ) (r : RentalRow) : Bool :=
  r.id == rental_id && r.customer_id == customer_id && r.status == "ACTIVE"

/-- `BikeRentalSystem.return_bike` (src lines 338-414).
Checks `current_customer`, then runs the SELECT-with-JOIN for the caller's
active rental (the JOIN requires the bike row to exist); computes
`actual_duration = (now - rental_start) / 3600` in hours, an overtime
charge of `overtime_hours * hourly_rate * 1.5` when
`actual_duration > planned_duration`, updates the rental row
(end timestamp, actual duration, additional charges,
`total_cost = base_cost + additional_charges`, status `"COMPLETED"`) and
marks the bike available again.  Returns the final cost. -/
def BikeRentalSystem.return_bike (s : SystemState) (now : ℚ) (rental_id : ℤ) :
    SystemState × Except RentalError ℚ :=
  match s.current_customer with
  | none => (s, .error .NotLoggedIn)
  | some cust =>
    match s.rentals.find? (activeRentalPred rental_id cust.id) with
    | none => (s, .error .RentalNotFoundError)
    | some r =>
      match s.bikes.find? (fun b => b.id == r.bike_id) with
      | none => (s, .error .RentalNotFoundError)
      | some brow =>
        let rental_end_time := now
        let actual_duration := (rental_end_time - r.rental_start) / 3600
        let bike := BikeFactory.create_bike r.bike_id brow.bike_type brow.model
          brow.hourly_rate brow.daily_rate
        let additional_charges_new : ℚ :=
          if actual_duration > (r.planned_duration_hours : ℚ) then
            (actual_duration - (r.planned_duration_hours : ℚ)) * bike.hourly_rate * 1.5
          else 0
        let final_cost := r.base_cost + additional_charges_new
        ({ s with
            rentals := s.rentals.map (fun x =>
              if x.id == rental_id then
                { x with
                    rental_end := some rental_end_time
                    actual_duration_hours := some actual_duration
                    additional_charges := additional_charges_new
                    total_cost := final_cost
                    status := "COMPLETED" }
              else x)
            bikes := s.bikes.map (fun b =>
              if b.id == r.bike_id then { b with is_available := true } else b) },
         .ok final_cost)

/-- The result record of `generate_business_report`. -/
structure BusinessReport where
  total_revenue : ℚ
  total_rentals : ℕ
  active_rentals : ℕ
  popular_bike : Option String
  avg_duration : ℚ
deriving DecidableEq, Repr

/-- The `JOIN bikes b ON r.bike_id = b.id` of the popularity query: the
category label of each rental whose bike row exists. -/
def joinedBikeTypes (s : SystemState) : List String :=
  s.rentals.filterMap (fun r =>
    (s.bikes.find? (fun b => b.id == r.bike_id)).map (fun b => b.bike_type))

/-- The `GROUP BY bike_type ORDER BY rental_count DESC LIMIT 1` query.
SQLite leaves ties implementation-defined; the model keeps the first
encountered label of maximal count.  `none` when there are no joined rows. -/
def popular_bike_type (s : SystemState) : Option String :=
  let types := joinedBikeTypes s
  types.dedup.foldl (fun acc t =>
    match acc with
    | none => some t
    | some u => if types.count t > types.count u then some t else some u) none

/-- `BikeRentalSystem.generate_business_report` (src lines 460-500).
`SUM(...) or 0` and `AVG(...) or 0` turn SQL NULL (no qualifying rows)
into `0`; the function only runs SELECTs, so the state is returned
unchanged. -/
def BikeRentalSystem.generate_business_report (s : SystemState) :
    SystemState × BusinessReport :=
  let completed := s.rentals.filter (fun r => r.status == "COMPLETED")
  let total_revenue := (completed.map (fun r => r.total_cost)).sum
  let total_rentals := s.rentals.length
  let active_rentals := (s.rentals.filter (fun r => r.status == "ACTIVE")).length
  let durations := s.rentals.filterMap (fun r => r.actual_duration_hours)
  let avg_duration : ℚ :=
    if durations.isEmpty then 0 else durations.sum / (durations.length : ℚ)
  (s,
   { total_revenue := total_revenue
     total_rentals := total_rentals
     active_rentals := active_rentals
     popular_bike := popular_bike_type s
     avg_duration := avg_duration })

/-! Spec-side pricing formulas, written from the words of §4.1 of the spec,
to be compared with the code-side `calculate_rental_cost` functions.
"floor(hours/24)" and "hours mod 24" are `Int.fdiv` / `Int.fmod`. -/

/-- Spec §4.1 Mountain: if hours ≤ 4, cost = hours × hourlyRate; else
floor(hours/24) × dailyRate + (hours mod 24) × hourlyRate × 0.8. -/
def spec_mountain_cost (hourlyRate dailyRate : ℚ) (hours : ℤ) : ℚ :=
  if hours ≤ 4 then hours * hourlyRate
  else (Int.fdiv hours 24) * dailyRate + (Int.fmod hours 24) * hourlyRate * 0.8

/-- Spec §4.1 Road: threshold 3, no remainder discount. -/
def spec_road_cost (hourlyRate dailyRate : ℚ) (hours : ℤ) : ℚ :=
  if hours ≤ 3 then hours * hourlyRate
  else (Int.fdiv hours 24) * dailyRate + (Int.fmod hours 24) * hourlyRate

/-- Spec §4.1 Hybrid: threshold 6, 0.9 remainder factor. -/
def spec_hybrid_cost (hourlyRate dailyRate : ℚ) (hours : ℤ) : ℚ :=
  if hours ≤ 6 then hours * hourlyRate
  else (Int.fdiv hours 24) * dailyRate + (Int.fmod hours 24) * hourlyRate * 0.9

/-- Spec §4.1 Electric: threshold 8, no remainder discount, plus a battery
surcharge of hours × 2.0 regardless of the branch taken. -/
def spec_electric_cost (hourlyRate dailyRate : ℚ) (hours : ℤ) : ℚ :=
  (if hours ≤ 8 then hours * hourlyRate
   else (Int.fdiv hours 24) * dailyRate + (Int.fmod hours 24) * hourlyRate)
  + (hours : ℚ) * 2.0

/-- Modelled from the spec (§4.1 edge case): a checked cost function that
fails loudly with `InvalidDurationError` on non-positive hours.  The code's
`calculate_rental_cost` methods contain no such check; this definition
follows the spec's words so the divergence can be stated. -/
def spec_checked_cost (c : BikeClass) (hourly_rate daily_rate : ℚ) (hours : ℤ) :
    Except RentalError ℚ :=
  if hours ≤ 0 then .error .InvalidDurationError
  else .ok (c.calculate_rental_cost hourly_rate daily_rate hours)

/-- C1: for every positive number of hours, each category's
`calculate_rental_cost` equals the piecewise formula of spec §4.1, with the
two concrete checks of the claim: Electric at 8 hours is
8 × hourlyRate + 16.0, and Mountain with rates 15/80 at 30 hours is 152.0. -/
theorem C1_pricing_matches_spec (hourlyRate dailyRate : ℚ) (hours : ℤ)
    (hpos : 0 < hours) :
    MountainBike.calculate_rental_cost hourlyRate dailyRate hours
      = spec_mountain_cost hourlyRate dailyRate hours
  ∧ RoadBike.calculate_rental_cost hourlyRate dailyRate hours
      = spec_road_cost hourlyRate dailyRate hours
  ∧ HybridBike.calculate_rental_cost hourlyRate dailyRate hours
      = spec_hybrid_cost hourlyRate dailyRate hours
  ∧ ElectricBike.calculate_rental_cost hourlyRate dailyRate hours
      = spec_electric_cost hourlyRate dailyRate hours
  ∧ ElectricBike.calculate_rental_cost hourlyRate dailyRate 8
      = 8 * hourlyRate + 16
  ∧ MountainBike.calculate_rental_cost 15 80 30 = 152 := by
  refine ⟨rfl, rfl, rfl, rfl, ?_,
    by norm_num [MountainBike.calculate_rental_cost, Int.fdiv, Int.fmod]⟩
  show (if (8:ℤ) ≤ 8 then (8:ℤ) * hourlyRate
    else (Int.fdiv 8 24) * dailyRate + (Int.fmod 8 24) * hourlyRate)
    + ((8:ℤ) : ℚ) * 2.0 = 8 * hourlyRate + 16
  norm_num

/-- C1 witness: the universally quantified part instantiated at 30 hours. -/
theorem C1_pricing_matches_spec_witness :
    (0:ℤ) < 30
  ∧ MountainBike.calculate_rental_cost 15 80 30 = spec_mountain_cost 15 80 30 :=
  ⟨by decide, (C1_pricing_matches_spec 15 80 30 (by decide)).1⟩

/-- C5 counterexample: at non-positive hours the cost functions return
plain values (Mountain rates 15/80 at 0 hours returns 0; Electric rates
25/120 at −1 hours returns −27) where the spec's checked function fails
with `InvalidDurationError` — so they do not fail loudly as claimed. -/
theorem C5_counterexample :
    MountainBike.calculate_rental_cost 15 80 0 = 0
  ∧ RoadBike.calculate_rental_cost 12 65 0 = 0
  ∧ HybridBike.calculate_rental_cost 10 55 (-1) = -10
  ∧ ElectricBike.calculate_rental_cost 25 120 (-1) = -27
  ∧ spec_checked_cost .MountainBike 15 80 0
      = Except.error RentalError.InvalidDurationError
  ∧ spec_checked_cost .ElectricBike 25 120 (-1)
      = Except.error RentalError.InvalidDurationError := by
  refine ⟨by norm_num [MountainBike.calculate_rental_cost],
    by norm_num [RoadBike.calculate_rental_cost],
    by norm_num [HybridBike.calculate_rental_cost],
    by norm_num [ElectricBike.calculate_rental_cost],
    by norm_num [spec_checked_cost], by norm_num [spec_checked_cost]⟩

/-- C5 amended: for every non-positive number of hours each category's
cost function does not fail; it returns hours × hourlyRate (plus the
battery surcharge hours × 2.0 for Electric). -/
theorem C5_nonpositive_hours_return_value (hourly_rate daily_rate : ℚ)
    (hours : ℤ) (h : hours ≤ 0) :
    MountainBike.calculate_rental_cost hourly_rate daily_rate hours
      = hours * hourly_rate
  ∧ RoadBike.calculate_rental_cost hourly_rate daily_rate hours
      = hours * hourly_rate
  ∧ HybridBike.calculate_rental_cost hourly_rate daily_rate hours
      = hours * hourly_rate
  ∧ ElectricBike.calculate_rental_cost hourly_rate daily_rate hours
      = hours * hourly_rate + hours * 2 := by
  have h4 : hours ≤ 4 := h.trans (by norm_num)
  have h3 : hours ≤ 3 := h.trans (by norm_num)
  have h6 : hours ≤ 6 := h.trans (by norm_num)
  have h8 : hours ≤ 8 := h.trans (by norm_num)
  refine ⟨?_, ?_, ?_, ?_⟩
  · rw [MountainBike.calculate_rental_cost, if_pos h4]
  · rw [RoadBike.calculate_rental_cost, if_pos h3]
  · rw [HybridBike.calculate_rental_cost, if_pos h6]
  · rw [ElectricBike.calculate_rental_cost, if_pos h8]
    norm_num

/-- C5 amended witness: the amended statement at 0 hours, rates 15/80. -/
theorem C5_nonpositive_hours_return_value_witness :
    (0:ℤ) ≤ 0
  ∧ MountainBike.calculate_rental_cost 15 80 0 = 0 * 15 :=
  ⟨by decide, (C5_nonpositive_hours_return_value 15 80 0 (by decide)).1⟩

/-- C9: the cost functions are not monotone in hours — Mountain with rates
15/80 costs 276 for 23 hours but only 80 for 24 hours, so there are
positive hours h1 < h2 with cost(h2) < cost(h1). -/
theorem C9_pricing_not_monotone :
    MountainBike.calculate_rental_cost 15 80 23 = 276
  ∧ MountainBike.calculate_rental_cost 15 80 24 = 80
  ∧ ∃ h1 h2 : ℤ, 0 < h1 ∧ h1 < h2 ∧
      MountainBike.calculate_rental_cost 15 80 h2
        < MountainBike.calculate_rental_cost 15 80 h1 :=
  ⟨by norm_num [MountainBike.calculate_rental_cost, Int.fdiv, Int.fmod],
   by norm_num [MountainBike.calculate_rental_cost, Int.fdiv, Int.fmod],
   23, 24, by decide, by decide,
   by norm_num [MountainBike.calculate_rental_cost, Int.fdiv, Int.fmod]⟩

/-- C6: `BikeFactory.create_bike` maps the four known labels one-to-one to
their pricing strategies, falls back to the Hybrid strategy on every other
label (a non-error result), and the built bike keeps the stored label. -/
theorem C6_factory_resolution (bike_id : ℤ) (ty mdl : String)
    (hourly_rate daily_rate : ℚ) :
    (BikeFactory.create_bike bike_id "Mountain" mdl hourly_rate daily_rate).cls
      = BikeClass.MountainBike
  ∧ (BikeFactory.create_bike bike_id "Road" mdl hourly_rate daily_rate).cls
      = BikeClass.RoadBike
  ∧ (BikeFactory.create_bike bike_id "Hybrid" mdl hourly_rate daily_rate).cls
      = BikeClass.HybridBike
  ∧ (BikeFactory.create_bike bike_id "Electric" mdl hourly_rate daily_rate).cls
      = BikeClass.ElectricBike
  ∧ (ty ≠ "Mountain" → ty ≠ "Road" → ty ≠ "Hybrid" → ty ≠ "Electric" →
      (BikeFactory.create_bike bike_id ty mdl hourly_rate daily_rate).cls
        = BikeClass.HybridBike)
  ∧ (BikeFactory.create_bike bike_id ty mdl hourly_rate daily_rate).bike_type
      = ty := by
  refine ⟨rfl, rfl, rfl, rfl, ?_, rfl⟩
  intro h1 h2 h3 h4
  have e1 : ("Mountain" == ty) = false := beq_eq_false_iff_ne.mpr (Ne.symm h1)
  have e2 : ("Road" == ty) = false := beq_eq_false_iff_ne.mpr (Ne.symm h2)
  have e3 : ("Hybrid" == ty) = false := beq_eq_false_iff_ne.mpr (Ne.symm h3)
  have e4 : ("Electric" == ty) = false := beq_eq_false_iff_ne.mpr (Ne.symm h4)
  simp [BikeFactory.create_bike, dictGet, bike_classes, List.find?,
    e1, e2, e3, e4]

/-- C6 witness: the fallback branch at the unknown label "Gravel". -/
theorem C6_factory_resolution_witness :
    ("Gravel" ≠ "Mountain" ∧ "Gravel" ≠ "Road" ∧ "Gravel" ≠ "Hybrid"
      ∧ "Gravel" ≠ "Electric")
  ∧ (BikeFactory.create_bike 7 "Gravel" "Canyon Grizl" 11 60).cls
      = BikeClass.HybridBike
  ∧ (BikeFactory.create_bike 7 "Gravel" "Canyon Grizl" 11 60).bike_type
      = "Gravel" :=
  ⟨⟨by decide, by decide, by decide, by decide⟩,
   (C6_factory_resolution 7 "Gravel" "Canyon Grizl" 11 60).2.2.2.2.1
     (by decide) (by decide) (by decide) (by decide),
   (C6_factory_resolution 7 "Gravel" "Canyon Grizl" 11 60).2.2.2.2.2⟩

/-- C10: with no customer logged in, `rent_bike` and `return_bike` fail
immediately, on any state and inputs, with the login error and the state
unchanged. -/
theorem C10_require_login (s : SystemState) (now : ℚ)
    (bike_id rental_id duration_hours : ℤ)
    (h : s.current_customer = none) :
    BikeRentalSystem.rent_bike s now bike_id duration_hours
      = (s, .error .NotLoggedIn)
  ∧ BikeRentalSystem.return_bike s now rental_id
      = (s, .error .NotLoggedIn) := by
  constructor
  · simp only [BikeRentalSystem.rent_bike, h]
  · simp only [BikeRentalSystem.return_bike, h]

/-- C10 witness: a concrete logged-out state with a bike and no rentals. -/
theorem C10_require_login_witness :
    (SystemState.mk [⟨1, "Mountain", "Trek X-Caliber", 15, 80, true⟩] [] []
        none).current_customer = none
  ∧ BikeRentalSystem.rent_bike
      (SystemState.mk [⟨1, "Mountain", "Trek X-Caliber", 15, 80, true⟩] [] []
        none) 0 1 2
      = (SystemState.mk [⟨1, "Mountain", "Trek X-Caliber", 15, 80, true⟩] [] []
        none, .error .NotLoggedIn) :=
  ⟨rfl,
   (C10_require_login
     (SystemState.mk [⟨1, "Mountain", "Trek X-Caliber", 15, 80, true⟩] [] []
       none) 0 1 1 2 rfl).1⟩

/-! Concrete fixtures for the witness theorems, with values from the sample
data seeded by `DatabaseManager.insert_sample_data`. -/

def aliceRow : CustomerRow := ⟨1, "Alice", "alice@example.com", "555-0001"⟩

def trekRow : BikeRow := ⟨1, "Mountain", "Trek X-Caliber", 15, 80, true⟩

def trekRowOut : BikeRow := { trekRow with is_available := false }

def activeTrekRental : RentalRow :=
  ⟨1, 1, 1, 0, none, 2, none, 30, 0, 30, "ACTIVE"⟩

def loggedInNoBikes : SystemState := ⟨[], [aliceRow], [], some aliceRow⟩

def readyState : SystemState := ⟨[trekRow], [aliceRow], [], some aliceRow⟩

def activeState : SystemState :=
  ⟨[trekRowOut], [aliceRow], [activeTrekRental], some aliceRow⟩

def emptyState : SystemState := ⟨[], [], [], none⟩

/-- C4: the precondition checks of Open and Close fire before any mutation:
non-positive hours give `InvalidDurationError`, a missing or unavailable
bike gives `BikeUnavailableError`, a missing / not-owned / not-active
rental gives `RentalNotFoundError`, each with the state unchanged. -/
theorem C4_preconditions_before_mutation (s : SystemState) (now : ℚ)
    (bike_id rental_id duration_hours : ℤ) (cust : CustomerRow)
    (hc : s.current_customer = some cust) :
    (duration_hours ≤ 0 →
      BikeRentalSystem.rent_bike s now bike_id duration_hours
        = (s, .error .InvalidDurationError))
  ∧ (0 < duration_hours →
      s.bikes.find? (fun b => b.id == bike_id && b.is_available) = none →
      BikeRentalSystem.rent_bike s now bike_id duration_hours
        = (s, .error .BikeUnavailableError))
  ∧ (s.rentals.find? (activeRentalPred rental_id cust.id) = none →
      BikeRentalSystem.return_bike s now rental_id
        = (s, .error .RentalNotFoundError)) := by
  refine ⟨?_, ?_, ?_⟩
  · intro hd
    simp only [BikeRentalSystem.rent_bike, hc, if_pos hd]
  · intro hd hb
    simp only [BikeRentalSystem.rent_bike, hc, if_neg (not_le.mpr hd), hb]
  · intro hr
    simp only [BikeRentalSystem.return_bike, hc, hr]

/-- C4 witness: the three failure paths on a logged-in state with no bikes
and no rentals. -/
theorem C4_preconditions_before_mutation_witness :
    loggedInNoBikes.current_customer = some aliceRow
  ∧ ((0:ℤ) ≤ 0
      ∧ BikeRentalSystem.rent_bike loggedInNoBikes 0 1 0
          = (loggedInNoBikes, .error .InvalidDurationError))
  ∧ ((0:ℤ) < 5
      ∧ loggedInNoBikes.bikes.find? (fun b => b.id == 1 && b.is_available) = none
      ∧ BikeRentalSystem.rent_bike loggedInNoBikes 0 1 5
          = (loggedInNoBikes, .error .BikeUnavailableError))
  ∧ (loggedInNoBikes.rentals.find? (activeRentalPred 1 aliceRow.id) = none
      ∧ BikeRentalSystem.return_bike loggedInNoBikes 0 1
          = (loggedInNoBikes, .error .RentalNotFoundError)) :=
  ⟨rfl,
   ⟨by decide,
    (C4_preconditions_before_mutation loggedInNoBikes 0 1 1 0 aliceRow rfl).1
      (by decide)⟩,
   ⟨by decide, rfl,
    (C4_preconditions_before_mutation loggedInNoBikes 0 1 1 5 aliceRow rfl).2.1
      (by decide) rfl⟩,
   rfl,
   (C4_preconditions_before_mutation loggedInNoBikes 0 1 1 5 aliceRow rfl).2.2
     rfl⟩

/-- The quoted cost that `rent_bike` computes for the found bike row. -/
def openQuote (b : BikeRow) (duration_hours : ℤ) : ℚ :=
  (BikeFactory.create_bike b.id b.bike_type b.model b.hourly_rate
    b.daily_rate).calculate_rental_cost duration_hours

/-- The rental row `rent_bike` inserts on success. -/
def openedRental (s : SystemState) (now : ℚ) (cust : CustomerRow)
    (bike_id duration_hours : ℤ) (b : BikeRow) : RentalRow :=
  { id := next_id s.rentals
    customer_id := cust.id
    bike_id := bike_id
    rental_start := now
    rental_end := none
    planned_duration_hours := duration_hours
    actual_duration_hours := none
    base_cost := openQuote b duration_hours
    additional_charges := 0
    total_cost := openQuote b duration_hours
    status := "ACTIVE" }

/-- C3: a successful Open resolves the pricing strategy of the stored
category, quotes `baseCost = cost(plannedHours)`, appends a rental record
with `totalCost = baseCost`, `additionalCharges = 0`, status ACTIVE and
start timestamp now, flips the bike's availability to false, and the new
record satisfies `totalCost = baseCost + additionalCharges`. -/
theorem C3_open_success (s : SystemState) (now : ℚ)
    (bike_id duration_hours : ℤ) (cust : CustomerRow) (b : BikeRow)
    (hc : s.current_customer = some cust)
    (hd : 0 < duration_hours)
    (hb : s.bikes.find? (fun x => x.id == bike_id && x.is_available) = some b) :
    BikeRentalSystem.rent_bike s now bike_id duration_hours
      = ({ s with
            rentals := s.rentals
              ++ [openedRental s now cust bike_id duration_hours b]
            bikes := s.bikes.map (fun x =>
              if x.id == bike_id then { x with is_available := false } else x) },
         .ok (next_id s.rentals, openQuote b duration_hours))
  ∧ (openedRental s now cust bike_id duration_hours b).total_cost
      = (openedRental s now cust bike_id duration_hours b).base_cost
        + (openedRental s now cust bike_id duration_hours b).additional_charges
  ∧ (openedRental s now cust bike_id duration_hours b).status = "ACTIVE"
  ∧ (openedRental s now cust bike_id duration_hours b).rental_end = none
  ∧ (openedRental s now cust bike_id duration_hours b).actual_duration_hours
      = none := by
  refine ⟨?_, by simp [openedRental], rfl, rfl, rfl⟩
  simp only [BikeRentalSystem.rent_bike, hc, if_neg (not_le.mpr hd), hb,
    openedRental, openQuote]

/-- C3 witness: Alice opens a 2-hour rental on the sample Mountain bike. -/
theorem C3_open_success_witness :
    readyState.current_customer = some aliceRow
  ∧ (0:ℤ) < 2
  ∧ readyState.bikes.find? (fun x => x.id == 1 && x.is_available) = some trekRow
  ∧ BikeRentalSystem.rent_bike readyState 0 1 2
      = ({ readyState with
            rentals := readyState.rentals ++ [openedRental readyState 0 aliceRow 1 2 trekRow]
            bikes := readyState.bikes.map (fun x =>
              if x.id == 1 then { x with is_available := false } else x) },
         .ok (next_id readyState.rentals, openQuote trekRow 2)) :=
  ⟨rfl, by decide, rfl,
   (C3_open_success readyState 0 1 2 aliceRow trekRow rfl (by decide) rfl).1⟩

/-- The overtime charge `return_bike` computes from the found rental row
`r` and its bike row `b`: 1.5 × hourlyRate per hour beyond the plan,
zero otherwise. -/
def closeCharges (now : ℚ) (r : RentalRow) (b : BikeRow) : ℚ :=
  if (now - r.rental_start) / 3600 > (r.planned_duration_hours : ℚ) then
    ((now - r.rental_start) / 3600 - (r.planned_duration_hours : ℚ))
      * b.hourly_rate * 1.5
  else 0

/-- C2: a successful Close computes `actualDuration = (now − start)/3600`,
charges `(actual − planned) × hourlyRate × 1.5` only beyond the plan,
updates the stored record (end timestamp, actual duration, additional
charges, `totalCost = baseCost + additionalCharges`, status COMPLETED) and
flips the bike's availability back to true. -/
theorem C2_close_success (s : SystemState) (now : ℚ) (rental_id : ℤ)
    (cust : CustomerRow) (r : RentalRow) (b : BikeRow)
    (hc : s.current_customer = some cust)
    (hr : s.rentals.find? (activeRentalPred rental_id cust.id) = some r)
    (hb : s.bikes.find? (fun x => x.id == r.bike_id) = some b) :
    BikeRentalSystem.return_bike s now rental_id
      = ({ s with
            rentals := s.rentals.map (fun x =>
              if x.id == rental_id then
                { x with
                    rental_end := some now
                    actual_duration_hours := some ((now - r.rental_start) / 3600)
                    additional_charges := closeCharges now r b
                    total_cost := r.base_cost + closeCharges now r b
                    status := "COMPLETED" }
              else x)
            bikes := s.bikes.map (fun x =>
              if x.id == r.bike_id then { x with is_available := true } else x) },
         .ok (r.base_cost + closeCharges now r b))
  ∧ ((now - r.rental_start) / 3600 ≤ (r.planned_duration_hours : ℚ) →
      closeCharges now r b = 0
        ∧ r.base_cost + closeCharges now r b = r.base_cost)
  ∧ ((r.planned_duration_hours : ℚ) < (now - r.rental_start) / 3600 →
      closeCharges now r b
        = ((now - r.rental_start) / 3600 - (r.planned_duration_hours : ℚ))
            * b.hourly_rate * 1.5) := by
  refine ⟨?_, ?_, ?_⟩
  · simp only [BikeRentalSystem.return_bike, hc, hr, hb, closeCharges,
      BikeFactory.create_bike]
  · intro hle
    rw [closeCharges, if_neg (not_lt.mpr hle)]
    exact ⟨rfl, add_zero _⟩
  · intro hlt
    rw [closeCharges, if_pos hlt]

/-- C2 witness: Alice returns the sample rental after one hour of a
two-hour plan — no overtime, total stays at the base cost. -/
theorem C2_close_success_witness :
    activeState.current_customer = some aliceRow
  ∧ activeState.rentals.find? (activeRentalPred 1 aliceRow.id)
      = some activeTrekRental
  ∧ activeState.bikes.find? (fun x => x.id == activeTrekRental.bike_id)
      = some trekRowOut
  ∧ BikeRentalSystem.return_bike activeState 3600 1
      = ({ activeState with
            rentals := activeState.rentals.map (fun x =>
              if x.id == 1 then
                { x with
                    rental_end := some (3600:ℚ)
                    actual_duration_hours :=
                      some (((3600:ℚ) - activeTrekRental.rental_start) / 3600)
                    additional_charges :=
                      closeCharges 3600 activeTrekRental trekRowOut
                    total_cost := activeTrekRental.base_cost
                      + closeCharges 3600 activeTrekRental trekRowOut
                    status := "COMPLETED" }
              else x)
            bikes := activeState.bikes.map (fun x =>
              if x.id == activeTrekRental.bike_id then
                { x with is_available := true } else x) },
         .ok (activeTrekRental.base_cost
              + closeCharges 3600 activeTrekRental trekRowOut))
  ∧ ((3600:ℚ) - activeTrekRental.rental_start) / 3600
      ≤ (activeTrekRental.planned_duration_hours : ℚ)
  ∧ closeCharges 3600 activeTrekRental trekRowOut = 0 :=
  ⟨rfl, rfl, rfl,
   (C2_close_success activeState 3600 1 aliceRow activeTrekRental trekRowOut
     rfl rfl rfl).1,
   by norm_num [activeTrekRental],
   ((C2_close_success activeState 3600 1 aliceRow activeTrekRental trekRowOut
     rfl rfl rfl).2.1 (by norm_num [activeTrekRental])).1⟩

/-- C7: the report leaves the state unchanged; revenue is the sum of
`totalCost` over COMPLETED rentals, the counts are the record counts,
the average duration is the mean over non-null `actualDuration` (0 when
there is none), and over zero rentals everything is 0 with no popular
category. -/
theorem C7_report_aggregates (s : SystemState) :
    (BikeRentalSystem.generate_business_report s).1 = s
  ∧ (BikeRentalSystem.generate_business_report s).2.total_revenue
      = ((s.rentals.filter (fun r => r.status == "COMPLETED")).map
          (fun r => r.total_cost)).sum
  ∧ (BikeRentalSystem.generate_business_report s).2.total_rentals
      = s.rentals.length
  ∧ (BikeRentalSystem.generate_business_report s).2.active_rentals
      = (s.rentals.filter (fun r => r.status == "ACTIVE")).length
  ∧ (BikeRentalSystem.generate_business_report s).2.avg_duration
      = (if (s.rentals.filterMap (fun r => r.actual_duration_hours)).isEmpty
         then 0
         else (s.rentals.filterMap (fun r => r.actual_duration_hours)).sum
           / ((s.rentals.filterMap (fun r => r.actual_duration_hours)).length : ℚ))
  ∧ (s.rentals = [] →
      (BikeRentalSystem.generate_business_report s).2
        = { total_revenue := 0, total_rentals := 0, active_rentals := 0,
            popular_bike := none, avg_duration := 0 }) := by
  refine ⟨rfl, rfl, rfl, rfl, rfl, ?_⟩
  intro h
  simp [BikeRentalSystem.generate_business_report, h, popular_bike_type,
    joinedBikeTypes]

/-- C7 witness: the report over the empty state. -/
theorem C7_report_aggregates_witness :
    emptyState.rentals = []
  ∧ (BikeRentalSystem.generate_business_report emptyState).2
      = { total_revenue := 0, total_rentals := 0, active_rentals := 0,
          popular_bike := none, avg_duration := 0 } :=
  ⟨rfl, (C7_report_aggregates emptyState).2.2.2.2.2 rfl⟩

end BikeRental
